import Mathlib

/-
Shallow embedding of the playback-synchronization and recording core of the
spotify-recorder repository (src/playback_monitor.py and src/recorder.py).

Modelling conventions:
  - A remote-API fetch of the current playback state is modelled by the type
    FetchResult: an exception raised by the API call (error), a response with
    no playback object or no item (noItem), or a full snapshot (snap).
  - Time is discrete: each loop iteration consumes one entry of a schedule
    (a list of fetch results); the number of iterations a timed loop may run
    is the number of poll instants that fit before the timeout elapses
    (polls at 0, interval, 2*interval, ... while elapsed < timeout).
  - Mutable object state (the monitor session fields current_track_id and
    current_track_uri) is passed explicitly and returned.
  - Side effects relevant to the claims (change-hook invocations, play-command
    issuances, inter-attempt waits, launching the player, calling cleanup)
    are recorded in the returned value.
-/

namespace SpotifyRec

/-- One playback snapshot whose item is present, as read off the remote API
response: uri and id of the item, the is_playing flag, and the progress and
duration in milliseconds (absent progress or is_playing default to 0 / false
in the source, so they are plain fields here). -/
structure Snapshot where
  uri : String
  id : String
  isPlaying : Bool
  progressMs : Nat
  durationMs : Nat
deriving DecidableEq, Repr

/-- Result of one remote fetch of the current playback: the API call raised
(error), the API returned no playback object or one without an item (noItem),
or a snapshot with an item (snap). -/
inductive FetchResult where
  | error : FetchResult
  | noItem : FetchResult
  | snap : Snapshot → FetchResult
deriving DecidableEq, Repr

/-- PlaybackMonitor.get_playback_state: returns the playback object, mapping
any raised exception to None. A response without an item is also unusable by
every caller, which tests playback and playback.get with one condition, so
both error and noItem map to none here. -/
def get_playback_state : FetchResult → Option Snapshot
  | .error => none
  | .noItem => none
  | .snap s => some s

/-- The monitor session fields set in PlaybackMonitor.init:
current_track_id and current_track_uri, both initially None. -/
structure MonitorState where
  current_track_id : Option String
  current_track_uri : Option String
deriving DecidableEq, Repr

/-- Loop body of PlaybackMonitor.wait_for_track_start over a schedule of
fetch results (one entry per poll instant within the timeout): on no usable
playback, sleep and retry; on a snapshot with the expected uri, is_playing
true and progress_ms below 2000, record the item id and uri into the session
and return True; on any other snapshot, sleep and retry; when the schedule
(the time budget) is exhausted, return False with the session unchanged. -/
def wait_for_track_start_go (expected : String) (st : MonitorState) :
    List FetchResult → Bool × MonitorState
  | [] => (false, st)
  | r :: rest =>
    match get_playback_state r with
    | none => wait_for_track_start_go expected st rest
    | some s =>
      if s.uri = expected ∧ s.isPlaying then
        if s.progressMs < 2000 then
          (true, ⟨some s.id, some s.uri⟩)
        else
          wait_for_track_start_go expected st rest
      else
        wait_for_track_start_go expected st rest

/-- Number of poll instants that fit before a timeout elapses when each failed
iteration sleeps one poll interval: polls happen at 0, i, 2i, ... while the
elapsed time is below the timeout (both in milliseconds). -/
def numPolls (timeout_ms interval_ms : Nat) : Nat :=
  (timeout_ms + interval_ms - 1) / interval_ms

/-- PlaybackMonitor.wait_for_track_start with an explicit timeout and poll
interval: runs the polling loop for as many poll instants as fit before the
timeout, reading fetch results from the schedule. -/
def wait_for_track_start (expected : String) (st : MonitorState)
    (sched : Nat → FetchResult) (timeout_ms interval_ms : Nat) :
    Bool × MonitorState :=
  wait_for_track_start_go expected st
    ((List.range (numPolls timeout_ms interval_ms)).map sched)

/-- Result of PlaybackMonitor.monitor_until_track_change: outcome is none when
the supplied schedule ran out with the loop still running (the source loop has
no timeout), some none when the function returned None (no usable playback),
and some (some u) when it returned the new uri u; hookCalls lists the
invocations of the on_change callback in order; state is the session state at
return. -/
structure MonitorChangeResult where
  outcome : Option (Option String)
  hookCalls : List (String × Snapshot)
  state : MonitorState
deriving DecidableEq, Repr

/-- PlaybackMonitor.monitor_until_track_change: loop until a poll has no
usable playback (return None) or reports a uri different from the session
current_track_uri (invoke the on_change hook with that uri and snapshot,
return the uri); otherwise sleep and poll again. The session fields are never
assigned in the body. -/
def monitor_until_track_change (st : MonitorState) :
    List FetchResult → MonitorChangeResult
  | [] => ⟨none, [], st⟩
  | r :: rest =>
    match get_playback_state r with
    | none => ⟨some none, [], st⟩
    | some s =>
      if st.current_track_uri ≠ some s.uri then
        ⟨some (some s.uri), [(s.uri, s)], st⟩
      else
        monitor_until_track_change st rest

/-- PlaybackMonitor.get_remaining_time: one fetch; None when no usable
playback, otherwise duration_ms minus progress_ms (computed in the integers,
as the source subtraction can go negative). The session is returned untouched
since the body assigns nothing. -/
def get_remaining_time (st : MonitorState) (r : FetchResult) :
    Option Int × MonitorState :=
  match get_playback_state r with
  | none => (none, st)
  | some s => (some ((s.durationMs : Int) - (s.progressMs : Int)), st)

/-- Loop body of PlaybackMonitor.wait_for_position_reset over a schedule of
fetch results: on no usable playback, sleep and retry; on a snapshot with the
expected uri and progress_ms below 1000, return True; on any other snapshot,
sleep and retry; when the schedule is exhausted, return False. No session
field is assigned in the body. -/
def wait_for_position_reset_go (expected : String) (st : MonitorState) :
    List FetchResult → Bool × MonitorState
  | [] => (false, st)
  | r :: rest =>
    match get_playback_state r with
    | none => wait_for_position_reset_go expected st rest
    | some s =>
      if s.uri = expected then
        if s.progressMs < 1000 then
          (true, st)
        else
          wait_for_position_reset_go expected st rest
      else
        wait_for_position_reset_go expected st rest

/-- PlaybackMonitor.wait_for_position_reset with an explicit max wait and poll
interval, running the loop for as many poll instants as fit before max wait
elapses. -/
def wait_for_position_reset (expected : String) (st : MonitorState)
    (sched : Nat → FetchResult) (max_wait_ms interval_ms : Nat) :
    Bool × MonitorState :=
  wait_for_position_reset_go expected st
    ((List.range (numPolls max_wait_ms interval_ms)).map sched)

/-- Result of one call of the device-enumeration endpoint in
SpotifyRecorder.ensure_spotify_device_active: the call raised (error), or
returned a response carrying a possibly empty device list (a None response
and an empty list behave identically at the call site, so both are the empty
list here). -/
inductive DevicesResult where
  | error : DevicesResult
  | resp : List String → DevicesResult
deriving DecidableEq, Repr

/-- Whether one devices response makes the condition devices and
devices.get succeed: a non-raising response with a nonempty device list. -/
def devicesFound : DevicesResult → Bool
  | .error => false
  | .resp names => !names.isEmpty

/-- Outcome of the two subprocess.Popen launch attempts in
ensure_spotify_device_active: whether the primary spotify spawn succeeds and
whether the /snap/bin/spotify fallback spawn succeeds. -/
structure LaunchConfig where
  primaryOk : Bool
  snapOk : Bool
deriving DecidableEq, Repr

/-- Observable outcome of SpotifyRecorder.ensure_spotify_device_active:
the returned boolean, whether the player launch was attempted, and how many
device-enumeration polls were issued. -/
structure EnsureResult where
  result : Bool
  launchAttempted : Bool
  pollCount : Nat
deriving DecidableEq, Repr

/-- Device-wait loop of ensure_spotify_device_active over a schedule of
device-enumeration results (one entry per 1 Hz poll instant within max_wait):
return True at the first response with a nonempty device list, counting the
polls issued; a raised call just waits and retries; an exhausted schedule is
the timeout, returning False. -/
def poll_devices_loop : List DevicesResult → Bool × Nat
  | [] => (false, 0)
  | r :: rest =>
    if devicesFound r then
      (true, 1)
    else
      let o := poll_devices_loop rest
      (o.1, o.2 + 1)

/-- SpotifyRecorder.ensure_spotify_device_active: unconditionally attempt to
spawn the player (primary command, then the snap fallback when the primary
raises); if both spawns raise, return False at once without polling; otherwise
poll the device-enumeration endpoint until a device appears or the schedule
(the max_wait budget) runs out. The launch is attempted in every case, before
any device enumeration. -/
def ensure_spotify_device_active (cfg : LaunchConfig)
    (polls : List DevicesResult) : EnsureResult :=
  if cfg.primaryOk ∨ cfg.snapOk then
    let o := poll_devices_loop polls
    ⟨o.1, true, o.2⟩
  else
    ⟨false, true, 0⟩

/-- What one attempt of the start_playback_web_api retry loop observes after
issuing the play command: an exception raised inside the try block (apiError),
a verification fetch with no playback object or no item (noState), or a
verification snapshot (snap). -/
inductive AttemptResult where
  | apiError : AttemptResult
  | noState : AttemptResult
  | snap : Snapshot → AttemptResult
deriving DecidableEq, Repr

/-- Observable outcome of SpotifyRecorder.start_playback_web_api: the returned
boolean, the number of play-command issuances, and the number of one-second
inter-attempt waits performed. -/
structure StartOutcome where
  success : Bool
  issuances : Nat
  waits : Nat
deriving DecidableEq, Repr

/-- Verification test of start_playback_web_api on a fetched snapshot: the
requested uri is the one playing and is_playing is true. -/
def startVerified (uri : String) (s : Snapshot) : Bool :=
  s.uri = uri && s.isPlaying

/-- Retry loop of SpotifyRecorder.start_playback_web_api over a per-attempt
schedule (one entry per loop iteration, the list length being max_retries):
each iteration issues the play command; a verified snapshot returns True at
once; an unverified snapshot or a raised exception falls through to the
inter-attempt wait, performed only when this is not the final attempt; a
missing playback state hits a continue statement, which skips the wait;
an exhausted schedule means the retries ran out, returning False. -/
def start_loop (uri : String) : List AttemptResult → StartOutcome
  | [] => ⟨false, 0, 0⟩
  | r :: rest =>
    match r with
    | .apiError =>
      let o := start_loop uri rest
      ⟨o.success, o.issuances + 1, o.waits + (if rest.isEmpty then 0 else 1)⟩
    | .noState =>
      let o := start_loop uri rest
      ⟨o.success, o.issuances + 1, o.waits⟩
    | .snap s =>
      if startVerified uri s then
        ⟨true, 1, 0⟩
      else
        let o := start_loop uri rest
        ⟨o.success, o.issuances + 1, o.waits + (if rest.isEmpty then 0 else 1)⟩

/-- SpotifyRecorder.start_playback_web_api: first ensure a device is active
(deviceOk abstracts the ensure_spotify_device_active call); on failure return
False with no play-command issuance; otherwise run the retry loop. -/
def start_playback_web_api (uri : String) (deviceOk : Bool)
    (attempts : List AttemptResult) : StartOutcome :=
  if deviceOk then start_loop uri attempts else ⟨false, 0, 0⟩

/-- How the external capture invocation of record_track_simple ends: the
process exits with a code (subprocess.run with check True raises
CalledProcessError on a nonzero code), or the wait is interrupted by
KeyboardInterrupt, or some other exception is raised. -/
inductive CaptureRun where
  | exits : Int → CaptureRun
  | keyboardInterrupt : CaptureRun
  | otherError : CaptureRun
deriving DecidableEq, Repr

/-- Failure classification of record_track_simple, following the error
taxonomy of the spec for the branches the source distinguishes. -/
inductive RecError where
  | captureProcessFailed : RecError
  | outputMissing : RecError
  | outputTooSmall : RecError
  | interrupted : RecError
  | unexpected : RecError
deriving DecidableEq, Repr

/-- Observable outcome of SpotifyRecorder.record_track_simple: the returned
boolean, whether the cleanup helper was invoked before returning, and which
failure branch (if any) produced the result. -/
structure RecordResult where
  success : Bool
  cleanupCalled : Bool
  err : Option RecError
deriving DecidableEq, Repr

/-- Minimum plausible output size used by record_track_simple:
expected_duration_s * 20 * 1024 bytes. -/
def min_expected_size (expected_duration_s : Nat) : Nat :=
  expected_duration_s * 20 * 1024

/-- SpotifyRecorder.record_track_simple: run the capture process; a nonzero
exit raises CalledProcessError, caught by the handler that returns False
without invoking cleanup; on exit code zero check that the output file exists
(else return False) and that its size reaches the minimum plausible size
(else return False), neither check invoking cleanup; a KeyboardInterrupt or
any other exception invokes the cleanup helper and returns False. -/
def record_track_simple (run : CaptureRun) (fileExists : Bool)
    (fileSize : Nat) (expected_duration_s : Nat) : RecordResult :=
  match run with
  | .exits code =>
    if code ≠ 0 then
      ⟨false, false, some .captureProcessFailed⟩
    else if !fileExists then
      ⟨false, false, some .outputMissing⟩
    else if fileSize < min_expected_size expected_duration_s then
      ⟨false, false, some .outputTooSmall⟩
    else
      ⟨true, false, none⟩
  | .keyboardInterrupt => ⟨false, true, some .interrupted⟩
  | .otherError => ⟨false, true, some .unexpected⟩

/-- A fetch result that satisfies the success test of wait_for_track_start:
a snapshot whose uri is the expected one, is_playing true, and progress below
the 2000 ms start-detection window. -/
def qualifiesStart (expected : String) : FetchResult → Bool
  | .snap s => s.uri = expected && s.isPlaying && decide (s.progressMs < 2000)
  | _ => false

/-- Simulated schedule for the positive wait_for_track_start test: two polls
with no usable playback, then the expected track playing at 500 ms. -/
def schedStartOk : Nat → FetchResult
  | 0 => .noItem
  | 1 => .noItem
  | _ => .snap ⟨"X", "idX", true, 500, 200000⟩

/-- Simulated schedule for the negative wait_for_track_start test: two polls
with no usable playback, then the expected track playing but stuck at
5000 ms of progress for the rest of the timeout. -/
def schedStartLate : Nat → FetchResult
  | 0 => .noItem
  | 1 => .noItem
  | _ => .snap ⟨"X", "idX", true, 5000, 200000⟩

/- Helper lemmas about the polling loops, shared by the claim theorems. -/

/-- The track-start loop returns true exactly when some schedule entry passes
the start test (expected uri, playing, progress below 2000 ms). -/
theorem wait_start_go_eq_any (expected : String) (st : MonitorState) :
    ∀ l : List FetchResult,
      (wait_for_track_start_go expected st l).1 =
        l.any (qualifiesStart expected)
  | [] => rfl
  | .error :: rest => by
    simpa [wait_for_track_start_go, get_playback_state, qualifiesStart]
      using wait_start_go_eq_any expected st rest
  | .noItem :: rest => by
    simpa [wait_for_track_start_go, get_playback_state, qualifiesStart]
      using wait_start_go_eq_any expected st rest
  | .snap s :: rest => by
    have ih := wait_start_go_eq_any expected st rest
    simp only [wait_for_track_start_go, get_playback_state, List.any_cons,
      qualifiesStart]
    by_cases h1 : s.uri = expected
    · by_cases h2 : s.isPlaying = true
      · by_cases h3 : s.progressMs < 2000
        · simp [h1, h2, h3]
        · simp [h1, h2, h3, ih]
      · simp [h1, h2, ih]
    · simp [h1, ih]

/-- When the track-start loop succeeds, the first passing snapshot of the
schedule is what gets recorded into the session: its id and uri. -/
theorem wait_start_go_true_state (expected : String) (st : MonitorState) :
    ∀ l : List FetchResult,
      (wait_for_track_start_go expected st l).1 = true →
        ∃ s : Snapshot, FetchResult.snap s ∈ l ∧ s.uri = expected ∧
          s.isPlaying = true ∧ s.progressMs < 2000 ∧
          (wait_for_track_start_go expected st l).2 = ⟨some s.id, some s.uri⟩
  | [], h => by simp [wait_for_track_start_go] at h
  | .error :: rest, h => by
    have h2 : (wait_for_track_start_go expected st rest).1 = true := h
    obtain ⟨s, hmem, hs⟩ := wait_start_go_true_state expected st rest h2
    exact ⟨s, List.mem_cons_of_mem _ hmem, hs⟩
  | .noItem :: rest, h => by
    have h2 : (wait_for_track_start_go expected st rest).1 = true := h
    obtain ⟨s, hmem, hs⟩ := wait_start_go_true_state expected st rest h2
    exact ⟨s, List.mem_cons_of_mem _ hmem, hs⟩
  | .snap s :: rest, h => by
    by_cases h1 : s.uri = expected ∧ s.isPlaying = true
    · by_cases h3 : s.progressMs < 2000
      · refine ⟨s, List.mem_cons_self _ _, h1.1, h1.2, h3, ?_⟩
        simp [wait_for_track_start_go, get_playback_state, h1, h3]
      · have h2 : (wait_for_track_start_go expected st rest).1 = true := by
          simpa [wait_for_track_start_go, get_playback_state, h1, h3] using h
        obtain ⟨t, hmem, ht⟩ := wait_start_go_true_state expected st rest h2
        refine ⟨t, List.mem_cons_of_mem _ hmem, ?_⟩
        simpa [wait_for_track_start_go, get_playback_state, h1, h3] using ht
    · have h2 : (wait_for_track_start_go expected st rest).1 = true := by
        simpa [wait_for_track_start_go, get_playback_state, h1] using h
      obtain ⟨t, hmem, ht⟩ := wait_start_go_true_state expected st rest h2
      refine ⟨t, List.mem_cons_of_mem _ hmem, ?_⟩
      simpa [wait_for_track_start_go, get_playback_state, h1] using ht

/-- When the track-start loop fails, the session is left unchanged. -/
theorem wait_start_go_false_frame (expected : String) (st : MonitorState) :
    ∀ l : List FetchResult,
      (wait_for_track_start_go expected st l).1 = false →
        (wait_for_track_start_go expected st l).2 = st
  | [], _ => rfl
  | .error :: rest, h => wait_start_go_false_frame expected st rest h
  | .noItem :: rest, h => wait_start_go_false_frame expected st rest h
  | .snap s :: rest, h => by
    by_cases h1 : s.uri = expected ∧ s.isPlaying = true
    · by_cases h3 : s.progressMs < 2000
      · simp [wait_for_track_start_go, get_playback_state, h1, h3] at h
      · have h2 : (wait_for_track_start_go expected st rest).1 = false := by
          simpa [wait_for_track_start_go, get_playback_state, h1, h3] using h
        simpa [wait_for_track_start_go, get_playback_state, h1, h3] using
          wait_start_go_false_frame expected st rest h2
    · have h2 : (wait_for_track_start_go expected st rest).1 = false := by
        simpa [wait_for_track_start_go, get_playback_state, h1] using h
      simpa [wait_for_track_start_go, get_playback_state, h1] using
        wait_start_go_false_frame expected st rest h2

/-- The position-reset loop never touches the session. -/
theorem position_reset_go_frame (expected : String) (st : MonitorState) :
    ∀ l : List FetchResult,
      (wait_for_position_reset_go expected st l).2 = st
  | [] => rfl
  | .error :: rest => position_reset_go_frame expected st rest
  | .noItem :: rest => position_reset_go_frame expected st rest
  | .snap s :: rest => by
    by_cases h1 : s.uri = expected
    · by_cases h3 : s.progressMs < 1000
      · simp [wait_for_position_reset_go, get_playback_state, h1, h3]
      · simpa [wait_for_position_reset_go, get_playback_state, h1, h3] using
          position_reset_go_frame expected st rest
    · simpa [wait_for_position_reset_go, get_playback_state, h1] using
        position_reset_go_frame expected st rest

/-- The change-monitor loop never touches the session, whichever way it
returns. -/
theorem monitor_change_frame (st : MonitorState) :
    ∀ l : List FetchResult, (monitor_until_track_change st l).state = st
  | [] => rfl
  | .error :: _ => rfl
  | .noItem :: _ => rfl
  | .snap s :: rest => by
    by_cases h : st.current_track_uri ≠ some s.uri
    · simp [monitor_until_track_change, get_playback_state, h]
    · simpa [monitor_until_track_change, get_playback_state, h] using
        monitor_change_frame st rest

/- Claim theorems. -/

/-- C5 counterexample: on a snapshot with progress 5000 ms and duration
3000 ms (progress at or above duration), get_remaining_time returns the
negative value -2000 ms, so the remaining-time computation does not clamp or
ignore the suspect value as the claim states. -/
theorem C5_counterexample :
    (get_remaining_time ⟨none, none⟩
        (.snap ⟨"u", "i", true, 5000, 3000⟩)).1 = some (-2000) ∧
    (-2000 : Int) < 0 := by
  constructor
  · rfl
  · decide

/-- C5 amended: get_remaining_time does not crash on a snapshot with
progress at or above duration, but it performs no clamping: it always
returns duration minus progress, which is nonpositive (possibly negative)
whenever progress is at or above duration; the session is untouched. -/
theorem C5_remaining_time_no_clamp :
    ∀ (st : MonitorState) (s : Snapshot),
      (get_remaining_time st (.snap s)).1 =
          some ((s.durationMs : Int) - (s.progressMs : Int)) ∧
      (s.durationMs ≤ s.progressMs →
        ∀ z : Int, (get_remaining_time st (.snap s)).1 = some z → z ≤ 0) := by
  intro st s
  refine ⟨rfl, ?_⟩
  intro hle z hz
  have hz2 : z = (s.durationMs : Int) - (s.progressMs : Int) := by
    simpa [get_remaining_time, get_playback_state] using hz.symm
  have : (s.durationMs : Int) ≤ (s.progressMs : Int) := by exact_mod_cast hle
  omega

/-- Witness for C5: instantiating the amended theorem at the snapshot with
progress 5000 ms and duration 3000 ms gives the concrete nonpositive value. -/
theorem C5_witness : (-2000 : Int) ≤ 0 :=
  (C5_remaining_time_no_clamp ⟨none, none⟩ ⟨"u", "i", true, 5000, 3000⟩).2
    (by decide) (-2000) rfl

/-- C7: wait_for_track_start returns true exactly when some poll issued
before the timeout elapses fetches a snapshot with the expected uri, playing,
and progress below the 2000 ms window; on success the observed id and uri of
such a snapshot are recorded into the session; fed the simulated schedule
[absent, absent, (uri X, playing, progress 500)] with expected uri X and the
default 30 s timeout and 500 ms interval it returns true, and with the final
snapshot at progress 5000 instead it runs out the timeout and returns
false. -/
theorem C7_wait_for_track_start_spec :
    (∀ (expected : String) (st : MonitorState) (sched : Nat → FetchResult)
        (timeout_ms interval_ms : Nat),
      (wait_for_track_start expected st sched timeout_ms interval_ms).1 =
          true ↔
        ∃ k < numPolls timeout_ms interval_ms,
          qualifiesStart expected (sched k) = true)
    ∧ (∀ (expected : String) (st : MonitorState) (l : List FetchResult),
        (wait_for_track_start_go expected st l).1 = true →
          ∃ s : Snapshot, FetchResult.snap s ∈ l ∧ s.uri = expected ∧
            s.isPlaying = true ∧ s.progressMs < 2000 ∧
            (wait_for_track_start_go expected st l).2 =
              ⟨some s.id, some s.uri⟩)
    ∧ (wait_for_track_start "X" ⟨none, none⟩ schedStartOk 30000 500).1 = true
    ∧ (wait_for_track_start "X" ⟨none, none⟩ schedStartLate 30000 500).1 =
        false := by
  refine ⟨?_, wait_start_go_true_state, by decide, by decide⟩
  intro expected st sched timeout_ms interval_ms
  rw [wait_for_track_start, wait_start_go_eq_any, List.any_eq_true]
  constructor
  · rintro ⟨r, hr, hq⟩
    obtain ⟨k, hk, rfl⟩ := List.mem_map.mp hr
    exact ⟨k, List.mem_range.mp hk, hq⟩
  · rintro ⟨k, hk, hq⟩
    exact ⟨sched k, List.mem_map_of_mem sched (List.mem_range.mpr hk), hq⟩

/-- Witness for C7: the success-state conjunct applied to the one-poll
schedule holding the matching snapshot at progress 500 ms. -/
theorem C7_witness :
    ∃ s : Snapshot,
      FetchResult.snap s ∈
        [FetchResult.snap ⟨"X", "idX", true, 500, 200000⟩] ∧
      s.uri = "X" ∧ s.isPlaying = true ∧ s.progressMs < 2000 ∧
      (wait_for_track_start_go "X" ⟨none, none⟩
          [FetchResult.snap ⟨"X", "idX", true, 500, 200000⟩]).2 =
        ⟨some s.id, some s.uri⟩ :=
  C7_wait_for_track_start_spec.2.1 "X" ⟨none, none⟩
    [FetchResult.snap ⟨"X", "idX", true, 500, 200000⟩] (by decide)

/-- C9: the session fields are written only by the success branch of
wait_for_track_start: a failing wait_for_track_start leaves the session
unchanged, wait_for_position_reset and get_remaining_time and
monitor_until_track_change always leave it unchanged (even when the monitor
returns a changed uri), and a successful wait_for_track_start sets both
fields to the observed id and uri. -/
theorem C9_session_frame :
    (∀ (expected : String) (st : MonitorState) (l : List FetchResult),
      (wait_for_track_start_go expected st l).1 = false →
        (wait_for_track_start_go expected st l).2 = st)
    ∧ (∀ (expected : String) (st : MonitorState) (l : List FetchResult),
        (wait_for_position_reset_go expected st l).2 = st)
    ∧ (∀ (st : MonitorState) (r : FetchResult),
        (get_remaining_time st r).2 = st)
    ∧ (∀ (st : MonitorState) (l : List FetchResult),
        (monitor_until_track_change st l).state = st)
    ∧ (∀ (expected : String) (st : MonitorState) (l : List FetchResult),
        (wait_for_track_start_go expected st l).1 = true →
          ∃ s : Snapshot,
            (wait_for_track_start_go expected st l).2 =
              ⟨some s.id, some s.uri⟩) := by
  refine ⟨wait_start_go_false_frame, position_reset_go_frame, ?_,
    monitor_change_frame, ?_⟩
  · intro st r
    cases r <;> rfl
  · intro expected st l h
    obtain ⟨s, _, _, _, _, hs⟩ := wait_start_go_true_state expected st l h
    exact ⟨s, hs⟩

/-- Witness for C9: a failing one-poll wait leaves a concrete session
unchanged, per the first conjunct of the frame theorem. -/
theorem C9_witness :
    (wait_for_track_start_go "X" ⟨some "a", some "b"⟩
        [FetchResult.noItem]).2 = ⟨some "a", some "b"⟩ :=
  C9_session_frame.1 "X" ⟨some "a", some "b"⟩ [FetchResult.noItem] (by decide)

/-- C10: when the session has no last-observed uri, the first polled snapshot
carrying an item is treated as a track change: monitor_until_track_change
invokes the change hook exactly once, with that uri and snapshot, and returns
that uri, leaving the session unchanged. -/
theorem C10_first_item_is_change :
    ∀ (st : MonitorState) (s : Snapshot) (rest : List FetchResult),
      st.current_track_uri = none →
        monitor_until_track_change st (.snap s :: rest) =
          ⟨some (some s.uri), [(s.uri, s)], st⟩ := by
  intro st s rest h
  simp [monitor_until_track_change, get_playback_state, h]

/-- Witness for C10: a fresh session fed a single snapshot of track B returns
uri B with one hook invocation. -/
theorem C10_witness :
    monitor_until_track_change ⟨none, none⟩
        [FetchResult.snap ⟨"B", "idB", true, 0, 1000⟩] =
      ⟨some (some "B"), [("B", ⟨"B", "idB", true, 0, 1000⟩)], ⟨none, none⟩⟩ :=
  C10_first_item_is_change ⟨none, none⟩ ⟨"B", "idB", true, 0, 1000⟩ [] rfl

/-- C4 counterexample: with a session that last observed track A, a single
transient fetch failure makes monitor_until_track_change return at once with
the playback-stopped value (None) and no hook call, even though the very next
poll would have reported a change to track B: the single transient failure by
itself determines the returned value. -/
theorem C4_counterexample :
    (monitor_until_track_change ⟨some "idA", some "A"⟩
        [.error, .snap ⟨"B", "idB", true, 0, 1000⟩]).outcome = some none ∧
    (monitor_until_track_change ⟨some "idA", some "A"⟩
        [.error, .snap ⟨"B", "idB", true, 0, 1000⟩]).hookCalls = [] := by
  constructor <;> rfl

/-- C4 amended: a transient fetch failure is absorbed (the iteration sleeps
and retries) in wait_for_track_start and wait_for_position_reset, but in
monitor_until_track_change any single fetch failure, mapped to None by
get_playback_state, is indistinguishable from playback having stopped and
immediately determines the returned value None. -/
theorem C4_transient_error_policy :
    (∀ (expected : String) (st : MonitorState) (rest : List FetchResult),
      wait_for_track_start_go expected st (.error :: rest) =
        wait_for_track_start_go expected st rest)
    ∧ (∀ (expected : String) (st : MonitorState) (rest : List FetchResult),
        wait_for_position_reset_go expected st (.error :: rest) =
          wait_for_position_reset_go expected st rest)
    ∧ (∀ (st : MonitorState) (rest : List FetchResult),
        monitor_until_track_change st (.error :: rest) =
          ⟨some none, [], st⟩) :=
  ⟨fun _ _ _ => rfl, fun _ _ _ => rfl, fun _ _ => rfl⟩

/-- C1 counterexample: a capture-process exit with code 1 produces the
capture-failed result without any cleanup invocation, and the missing-output
and too-small-output branches likewise return without invoking cleanup —
contradicting the claim that every capture post-condition violation triggers
cleanup before the failure result is returned. -/
theorem C1_counterexample :
    (record_track_simple (.exits 1) true 99999999 180).success = false ∧
    (record_track_simple (.exits 1) true 99999999 180).err =
        some .captureProcessFailed ∧
    (record_track_simple (.exits 1) true 99999999 180).cleanupCalled = false ∧
    (record_track_simple (.exits 0) false 0 180).err =
        some .outputMissing ∧
    (record_track_simple (.exits 0) false 0 180).cleanupCalled = false ∧
    (record_track_simple (.exits 0) true 0 180).err =
        some .outputTooSmall ∧
    (record_track_simple (.exits 0) true 0 180).cleanupCalled = false := by
  refine ⟨rfl, rfl, rfl, rfl, rfl, ?_, rfl⟩
  decide

/-- C1 amended: record_track_simple invokes the cleanup operation before
returning only on the keyboard-interrupt and unexpected-exception exit paths;
the capture post-condition violations (nonzero exit, missing output,
undersized output) return their failure result without invoking cleanup. -/
theorem C1_cleanup_policy :
    ∀ (run : CaptureRun) (fileExists : Bool)
        (fileSize expected_duration_s : Nat),
      (record_track_simple run fileExists fileSize
          expected_duration_s).cleanupCalled = true ↔
        (run = .keyboardInterrupt ∨ run = .otherError) := by
  intro run fileExists fileSize expected_duration_s
  cases run with
  | exits code =>
    by_cases hc : code ≠ 0
    · simp [record_track_simple, hc]
    · by_cases hf : fileExists
      · by_cases hs : fileSize < min_expected_size expected_duration_s
        · simp [record_track_simple, hc, hf, hs]
        · simp [record_track_simple, hc, hf, hs]
      · simp [record_track_simple, hc, hf]
  | keyboardInterrupt => simp [record_track_simple]
  | otherError => simp [record_track_simple]

/-- C2 counterexample: with expected duration 180 s, exit code 0 and an
existing output file of exactly 3,600,000 bytes — not below the threshold the
claim states — the code still fails with the too-small error, because the
threshold the code applies is 180 * 20 * 1024 = 3,686,400 bytes, not
3,600,000. -/
theorem C2_counterexample :
    min_expected_size 180 = 3686400 ∧
    (record_track_simple (.exits 0) true 3600000 180).success = false ∧
    (record_track_simple (.exits 0) true 3600000 180).err =
        some .outputTooSmall := by
  refine ⟨by decide, ?_, ?_⟩ <;> · show _ = _; decide

/-- C2 amended: for expected duration 180 s the minimum-size threshold
applied is 3,686,400 bytes (20 KiB, that is 20480 bytes, per second of
expected duration); with exit code 0 and the file present, success holds
exactly when the size reaches that threshold, so an artifact of 3,000,000
bytes fails as too small and one of 4,000,000 bytes succeeds. -/
theorem C2_size_threshold :
    min_expected_size 180 = 3686400 ∧
    (∀ fileSize : Nat,
      (record_track_simple (.exits 0) true fileSize 180).success = true ↔
        3686400 ≤ fileSize) ∧
    (record_track_simple (.exits 0) true 3000000 180).success = false ∧
    (record_track_simple (.exits 0) true 3000000 180).err =
        some .outputTooSmall ∧
    (record_track_simple (.exits 0) true 4000000 180).success = true ∧
    (record_track_simple (.exits 0) true 4000000 180).err = none := by
  refine ⟨by decide, ?_, by decide, by decide, by decide, by decide⟩
  intro fileSize
  have hmin : min_expected_size 180 = 3686400 := by decide
  by_cases hs : fileSize < 3686400
  · simp [record_track_simple, hmin, hs]
  · simp [record_track_simple, hmin, hs]
    omega

/-- C3 counterexample: with max_retries 3 and every verification fetch
returning no playback state, all three attempts are issued and fail, yet no
one-second inter-attempt wait is performed at all — the continue statement on
the unavailable-state path skips the wait, contradicting the claim that every
non-final unverified attempt waits one second. -/
theorem C3_counterexample :
    (start_playback_web_api "X" true
        [.noState, .noState, .noState]).success = false ∧
    (start_playback_web_api "X" true
        [.noState, .noState, .noState]).issuances = 3 ∧
    (start_playback_web_api "X" true
        [.noState, .noState, .noState]).waits = 0 := by
  refine ⟨rfl, rfl, rfl⟩

/-- C3 amended: in the retry loop, a non-final attempt that fails on a
fetched snapshot (wrong uri or not playing) or on a raised exception performs
the one-second wait before the next attempt; a non-final attempt whose
verification fetch is unavailable (no playback or no item) hits a continue
statement and issues the next attempt with no wait; and the final attempt
never waits. -/
theorem C3_wait_policy :
    (∀ (uri : String) (s : Snapshot) (rest : List AttemptResult),
      rest ≠ [] → startVerified uri s = false →
        (start_loop uri (.snap s :: rest)).waits =
          (start_loop uri rest).waits + 1)
    ∧ (∀ (uri : String) (rest : List AttemptResult), rest ≠ [] →
        (start_loop uri (.apiError :: rest)).waits =
          (start_loop uri rest).waits + 1)
    ∧ (∀ (uri : String) (rest : List AttemptResult),
        (start_loop uri (.noState :: rest)).waits =
          (start_loop uri rest).waits)
    ∧ (∀ (uri : String) (r : AttemptResult),
        (start_loop uri [r]).waits = 0) := by
  refine ⟨?_, ?_, ?_, ?_⟩
  · intro uri s rest hrest hv
    simp [start_loop, hv, List.isEmpty_iff, hrest]
  · intro uri rest hrest
    simp [start_loop, List.isEmpty_iff, hrest]
  · intro uri rest
    simp [start_loop]
  · intro uri r
    cases r with
    | apiError => rfl
    | noState => rfl
    | snap s =>
      by_cases hv : startVerified uri s = true
      · simp [start_loop, hv]
      · simp [start_loop, hv]

/-- Witness for C3: a concrete non-final wrong-track attempt adds exactly one
wait on top of what the remaining schedule performs. -/
theorem C3_witness :
    (start_loop "X"
        [AttemptResult.snap ⟨"Y", "idY", true, 0, 1000⟩,
         AttemptResult.noState]).waits =
      (start_loop "X" [AttemptResult.noState]).waits + 1 :=
  C3_wait_policy.1 "X" ⟨"Y", "idY", true, 0, 1000⟩ [AttemptResult.noState]
    (by decide) (by decide)

/-- C6 counterexample: even when a controllable device is enumerable at the
very first device poll, ensure_spotify_device_active still attempts to launch
the external player application — the launch is unconditional, contradicting
the claim that it launches only when no device is enumerable. -/
theorem C6_counterexample :
    devicesFound (.resp ["Phone"]) = true ∧
    (ensure_spotify_device_active ⟨true, true⟩
        [.resp ["Phone"]]).launchAttempted = true ∧
    (ensure_spotify_device_active ⟨true, true⟩
        [.resp ["Phone"]]).result = true := by
  refine ⟨rfl, rfl, rfl⟩

/-- C6 amended: ensure_spotify_device_active always attempts to launch the
external player application before any device enumeration; and when even
launching fails (both spawn attempts raise), it returns false immediately
with zero device-enumeration polls. -/
theorem C6_launch_policy :
    (∀ (cfg : LaunchConfig) (polls : List DevicesResult),
      (ensure_spotify_device_active cfg polls).launchAttempted = true)
    ∧ (∀ (cfg : LaunchConfig) (polls : List DevicesResult),
        cfg.primaryOk = false → cfg.snapOk = false →
          (ensure_spotify_device_active cfg polls).result = false ∧
          (ensure_spotify_device_active cfg polls).pollCount = 0) := by
  constructor
  · intro cfg polls
    by_cases h : cfg.primaryOk ∨ cfg.snapOk
    · simp [ensure_spotify_device_active, h]
    · simp [ensure_spotify_device_active, h]
  · intro cfg polls h1 h2
    simp [ensure_spotify_device_active, h1, h2]

/-- Witness for C6: with both spawn attempts failing and a device schedule
that would have reported a device, the call still returns false with zero
polls. -/
theorem C6_witness :
    (ensure_spotify_device_active ⟨false, false⟩
        [DevicesResult.resp ["Phone"]]).result = false ∧
    (ensure_spotify_device_active ⟨false, false⟩
        [DevicesResult.resp ["Phone"]]).pollCount = 0 :=
  C6_launch_policy.2 ⟨false, false⟩ [DevicesResult.resp ["Phone"]] rfl rfl

/-- C8: with max_retries 3 and the device active, when every verification
snapshot reports a wrong or not-playing track, exactly 3 play-command
issuances occur and the result is failure; and when the first attempt is
unverified (any failure mode) and the second verification snapshot confirms
the requested track playing, exactly 2 issuances occur and the result is
success. -/
theorem C8_retry_counts :
    (∀ (uri : String) (s1 s2 s3 : Snapshot),
      startVerified uri s1 = false → startVerified uri s2 = false →
      startVerified uri s3 = false →
        (start_playback_web_api uri true
            [.snap s1, .snap s2, .snap s3]).success = false ∧
        (start_playback_web_api uri true
            [.snap s1, .snap s2, .snap s3]).issuances = 3)
    ∧ (∀ (uri : String) (r1 : AttemptResult) (s2 : Snapshot)
          (r3 : AttemptResult),
        (∀ s : Snapshot, r1 = .snap s → startVerified uri s = false) →
        startVerified uri s2 = true →
          (start_playback_web_api uri true
              [r1, .snap s2, r3]).success = true ∧
          (start_playback_web_api uri true
              [r1, .snap s2, r3]).issuances = 2) := by
  constructor
  · intro uri s1 s2 s3 h1 h2 h3
    simp [start_playback_web_api, start_loop, h1, h2, h3]
  · intro uri r1 s2 r3 h1 h2
    cases r1 with
    | apiError => simp [start_playback_web_api, start_loop, h2]
    | noState => simp [start_playback_web_api, start_loop, h2]
    | snap s => simp [start_playback_web_api, start_loop, h1 s rfl, h2]

/-- Witness for C8: concrete schedules for both scenarios — three polls all
showing track Y while track X was requested give three issuances and failure;
a first wrong poll followed by a verified poll of track X gives two issuances
and success. -/
theorem C8_witness :
    ((start_playback_web_api "X" true
        [AttemptResult.snap ⟨"Y", "idY", true, 0, 1000⟩,
         AttemptResult.snap ⟨"Y", "idY", true, 0, 1000⟩,
         AttemptResult.snap ⟨"Y", "idY", true, 0, 1000⟩]).success = false ∧
     (start_playback_web_api "X" true
        [AttemptResult.snap ⟨"Y", "idY", true, 0, 1000⟩,
         AttemptResult.snap ⟨"Y", "idY", true, 0, 1000⟩,
         AttemptResult.snap ⟨"Y", "idY", true, 0, 1000⟩]).issuances = 3) ∧
    ((start_playback_web_api "X" true
        [AttemptResult.snap ⟨"Y", "idY", true, 0, 1000⟩,
         AttemptResult.snap ⟨"X", "idX", true, 0, 1000⟩,
         AttemptResult.noState]).success = true ∧
     (start_playback_web_api "X" true
        [AttemptResult.snap ⟨"Y", "idY", true, 0, 1000⟩,
         AttemptResult.snap ⟨"X", "idX", true, 0, 1000⟩,
         AttemptResult.noState]).issuances = 2) :=
  ⟨C8_retry_counts.1 "X" ⟨"Y", "idY", true, 0, 1000⟩
      ⟨"Y", "idY", true, 0, 1000⟩ ⟨"Y", "idY", true, 0, 1000⟩
      (by decide) (by decide) (by decide),
   C8_retry_counts.2 "X" (AttemptResult.snap ⟨"Y", "idY", true, 0, 1000⟩)
      ⟨"X", "idX", true, 0, 1000⟩ AttemptResult.noState
      (by intro s hs; cases hs; decide) (by decide)⟩

end SpotifyRec
